import Mathlib

/-!
Verification development for the core of the cpp_to_rust binding generator:
the C++ type model and FFI type mapper (src/cpp_type.rs, src/cpp_ffi_data.rs)
and the declaration database (database.rs). Rust enums and structs are
embedded as Lean inductives and structures; fallible Rust functions
returning Result are embedded as Except; Rust panics (panic and assert
macros) are embedded as a distinguished result constructor or as Option.none,
as stated at each definition.
-/

set_option maxHeartbeats 1000000

namespace CppToRust

/-- Embeds enum CppTypeIndirection from cpp_type.rs: the pointer and
reference decoration of a C++ type. -/
inductive CppTypeIndirection where
  | None
  | Ptr
  | Ref
  | PtrRef
  | PtrPtr
  | RValueRef
deriving DecidableEq

/-- Embeds enum CppBuiltInNumericType: the 21 built-in C++ numeric kinds. -/
inductive CppBuiltInNumericType where
  | Bool
  | CharS
  | CharU
  | SChar
  | UChar
  | WChar
  | Char16
  | Char32
  | Short
  | UShort
  | Int
  | UInt
  | Long
  | ULong
  | LongLong
  | ULongLong
  | Int128
  | UInt128
  | Float
  | Double
  | LongDouble
deriving DecidableEq

/-- Embeds CppBuiltInNumericType::to_cpp_code from cpp_type.rs. -/
def CppBuiltInNumericType.to_cpp_code : CppBuiltInNumericType → String
  | .Bool => "bool"
  | .CharS => "char"
  | .CharU => "char"
  | .SChar => "signed char"
  | .UChar => "unsigned char"
  | .WChar => "wchar_t"
  | .Char16 => "char16_t"
  | .Char32 => "char32_t"
  | .Short => "short"
  | .UShort => "unsigned short"
  | .Int => "int"
  | .UInt => "unsigned int"
  | .Long => "long"
  | .ULong => "unsigned long"
  | .LongLong => "long long"
  | .ULongLong => "unsigned long long"
  | .Int128 => "__int128_t"
  | .UInt128 => "__uint128_t"
  | .Float => "float"
  | .Double => "double"
  | .LongDouble => "long double"

mutual

/-- Embeds struct CppType: a C++ type with constness, indirection and base. -/
inductive CppType where
  | mk (is_const : Bool) (indirection : CppTypeIndirection) (base : CppTypeBase)

/-- Embeds enum CppTypeBase from cpp_type.rs. Fields of SpecificNumeric and
PointerSizedInteger beyond the name are never inspected by the code under
verification and are elided; TemplateParameter carries its two indices. -/
inductive CppTypeBase where
  | Void
  | BuiltInNumeric (t : CppBuiltInNumericType)
  | Enum (name : String)
  | SpecificNumeric (name : String)
  | PointerSizedInteger (name : String)
  | Class (name : String) (template_arguments : CppTypeListOpt)
  | TemplateParameter (nested_level : Nat) (index : Nat)
  | FunctionPointer (return_type : CppType) (arguments : CppTypeList)
      (allows_variable_arguments : Bool)

/-- Embeds Vec of CppType (spelled out to keep the inductive family mutual
rather than nested). -/
inductive CppTypeList where
  | nil
  | cons (head : CppType) (tail : CppTypeList)

/-- Embeds Option of Vec of CppType (template argument lists). -/
inductive CppTypeListOpt where
  | none
  | some (args : CppTypeList)

end

/-- Projection: the is_const field of a CppType. -/
def CppType.is_const : CppType → Bool
  | .mk c _ _ => c

/-- Projection: the indirection field of a CppType. -/
def CppType.indirection : CppType → CppTypeIndirection
  | .mk _ i _ => i

/-- Projection: the base field of a CppType. -/
def CppType.base : CppType → CppTypeBase
  | .mk _ _ b => b

/-- Appends two embedded type lists. -/
def CppTypeList.append : CppTypeList → CppTypeList → CppTypeList
  | .nil, l => l
  | .cons a t, l => .cons a (CppTypeList.append t l)

mutual

/-- Structural equality of embedded C++ types (the derived PartialEq of the
Rust data model). -/
def CppType.beq : CppType → CppType → Bool
  | .mk c1 i1 b1, .mk c2 i2 b2 =>
    decide (c1 = c2) && decide (i1 = i2) && CppTypeBase.beq b1 b2

/-- Structural equality of embedded type bases. -/
def CppTypeBase.beq : CppTypeBase → CppTypeBase → Bool
  | .Void, .Void => true
  | .BuiltInNumeric t1, .BuiltInNumeric t2 => decide (t1 = t2)
  | .Enum n1, .Enum n2 => decide (n1 = n2)
  | .SpecificNumeric n1, .SpecificNumeric n2 => decide (n1 = n2)
  | .PointerSizedInteger n1, .PointerSizedInteger n2 => decide (n1 = n2)
  | .Class n1 a1, .Class n2 a2 => decide (n1 = n2) && CppTypeListOpt.beq a1 a2
  | .TemplateParameter l1 i1, .TemplateParameter l2 i2 =>
    decide (l1 = l2) && decide (i1 = i2)
  | .FunctionPointer r1 a1 v1, .FunctionPointer r2 a2 v2 =>
    CppType.beq r1 r2 && CppTypeList.beq a1 a2 && decide (v1 = v2)
  | _, _ => false

/-- Structural equality of embedded type lists. -/
def CppTypeList.beq : CppTypeList → CppTypeList → Bool
  | .nil, .nil => true
  | .cons a1 t1, .cons a2 t2 => CppType.beq a1 a2 && CppTypeList.beq t1 t2
  | _, _ => false

/-- Structural equality of embedded optional type lists. -/
def CppTypeListOpt.beq : CppTypeListOpt → CppTypeListOpt → Bool
  | .none, .none => true
  | .some l1, .some l2 => CppTypeList.beq l1 l2
  | _, _ => false

end

/-- Embeds CppTypeBase::is_void from cpp_type.rs. -/
def CppTypeBase.is_void : CppTypeBase → Bool
  | .Void => true
  | _ => false

/-- Embeds CppTypeBase::is_class from cpp_type.rs. -/
def CppTypeBase.is_class : CppTypeBase → Bool
  | .Class _ _ => true
  | _ => false

/-- Embeds CppTypeBase::is_template_parameter from cpp_type.rs. -/
def CppTypeBase.is_template_parameter : CppTypeBase → Bool
  | .TemplateParameter _ _ => true
  | _ => false

/-- Classification helper of the embedding: the base is a function pointer. -/
def CppTypeBase.is_function_pointer : CppTypeBase → Bool
  | .FunctionPointer _ _ _ => true
  | _ => false

/-- Classification helper of the embedding: the base is the QFlags class
(the bitmask-flags wrapper type special-cased by the mapper). -/
def CppTypeBase.is_qflags : CppTypeBase → Bool
  | .Class name _ => decide (name = "QFlags")
  | _ => false

/-- Embeds the indirection suffix table of CppType::to_cpp_code. -/
def CppTypeIndirection.suffix : CppTypeIndirection → String
  | .None => ""
  | .Ptr => "*"
  | .Ref => "&"
  | .PtrRef => "*&"
  | .PtrPtr => "**"
  | .RValueRef => "&&"

/-- Replaces every non-overlapping occurrence of the two-character pattern
c1 c2 by rep, scanning left to right (the semantics of str::replace for a
two-character pattern). -/
def replacePairChars (c1 c2 : Char) (rep : List Char) : List Char → List Char
  | [] => []
  | [a] => [a]
  | a :: b :: rest =>
    if a = c1 ∧ b = c2 then rep ++ replacePairChars c1 c2 rep rest
    else a :: replacePairChars c1 c2 rep (b :: rest)

/-- Replaces every occurrence of one character by rep, left to right (the
semantics of str::replace for a one-character pattern). -/
def replaceCharBy (c : Char) (rep : List Char) : List Char → List Char
  | [] => []
  | a :: rest => (if a = c then rep else [a]) ++ replaceCharBy c rep rest

/-- Embeds the calls replace from "::" to underscore in cpp_type.rs and
cpp_ffi_data.rs: scope separators are replaced by underscores. -/
def replaceScopeSep (s : String) : String :=
  ⟨replacePairChars ':' ':' ['_'] s.data⟩

/-- Embeds the calls replace from a space to underscore in cpp_type.rs. -/
def replaceSpaces (s : String) : String :=
  ⟨replaceCharBy ' ' ['_'] s.data⟩

mutual

/-- Embeds CppTypeBase::to_cpp_code from cpp_type.rs (Result is Except). -/
def CppTypeBase.to_cpp_code : CppTypeBase → Except String String
  | .Void => .ok "void"
  | .BuiltInNumeric t => .ok t.to_cpp_code
  | .Enum name => .ok name
  | .SpecificNumeric name => .ok name
  | .PointerSizedInteger name => .ok name
  | .Class name .none => .ok name
  | .Class name (.some args) =>
    match CppTypeList.to_cpp_codes args with
    | .error e => .error e
    | .ok ts => .ok (name ++ "< " ++ String.intercalate ", " ts ++ " >")
  | .TemplateParameter _ _ =>
    .error "template parameters are not supported here yet"
  | .FunctionPointer return_type arguments allows_variable_arguments =>
    if allows_variable_arguments then
      .error "Function pointers with variadic arguments are not supported"
    else
      match CppTypeList.to_cpp_codes arguments with
      | .error e => .error e
      | .ok ts =>
        match CppType.to_cpp_code return_type with
        | .error e => .error e
        | .ok r => .ok (r ++ " (*FN_PTR)(" ++ String.intercalate ", " ts ++ ")")

/-- Embeds CppType::to_cpp_code from cpp_type.rs. -/
def CppType.to_cpp_code : CppType → Except String String
  | .mk c ind base =>
    match CppTypeBase.to_cpp_code base with
    | .error e => .error e
    | .ok name => .ok ((if c then "const " else "") ++ name ++ ind.suffix)

/-- Renders every element of a type list, stopping at the first error
(the loops with try in cpp_type.rs). -/
def CppTypeList.to_cpp_codes : CppTypeList → Except String (List String)
  | .nil => .ok []
  | .cons a t =>
    match CppType.to_cpp_code a with
    | .error e => .error e
    | .ok s =>
      match CppTypeList.to_cpp_codes t with
      | .error e => .error e
      | .ok ts => .ok (s :: ts)

end

/-- Embeds enum TypeCaptionStrategy from caption_strategy.rs. -/
inductive TypeCaptionStrategy where
  | Short
  | Full
deriving DecidableEq

mutual

/-- Embeds CppTypeBase::caption from cpp_type.rs. The source panics on
TemplateParameter and FunctionPointer; the panic is embedded as none. -/
def CppTypeBase.caption : CppTypeBase → Option String
  | .Void => Option.some "void"
  | .BuiltInNumeric t => Option.some (replaceSpaces t.to_cpp_code)
  | .SpecificNumeric name => Option.some name
  | .PointerSizedInteger name => Option.some name
  | .Enum name => Option.some (replaceScopeSep name)
  | .Class name .none => Option.some (replaceScopeSep name)
  | .Class name (.some args) =>
    match CppTypeList.captions args with
    | Option.none => Option.none
    | Option.some ts =>
      Option.some (replaceScopeSep name ++ "_" ++ String.intercalate "_" ts)
  | .TemplateParameter _ _ => Option.none
  | .FunctionPointer _ _ _ => Option.none

/-- Embeds CppType::caption from cpp_type.rs (panic embedded as none). -/
def CppType.caption : CppType → TypeCaptionStrategy → Option String
  | .mk _ _ base, .Short => base.caption
  | .mk c ind base, .Full =>
    match base.caption with
    | Option.none => Option.none
    | Option.some r0 =>
      let r1 :=
        match ind with
        | .None => r0
        | .Ptr => r0 ++ "_ptr"
        | .Ref => r0 ++ "_ref"
        | .PtrRef => r0 ++ "_ptr_ref"
        | .PtrPtr => r0 ++ "_ptr_ptr"
        | .RValueRef => r0 ++ "_rvalue_ref"
      Option.some (if c then "const_" ++ r1 else r1)

/-- Captions of every element of a type list with the Full strategy
(the template-argument loop of CppTypeBase::caption). -/
def CppTypeList.captions : CppTypeList → Option (List String)
  | .nil => Option.some []
  | .cons a t =>
    match CppType.caption a .Full with
    | Option.none => Option.none
    | Option.some s =>
      match CppTypeList.captions t with
      | Option.none => Option.none
      | Option.some ts => Option.some (s :: ts)

end

/-- Embeds enum IndirectionChange from cpp_ffi_data.rs. -/
inductive IndirectionChange where
  | NoChange
  | ValueToPointer
  | ReferenceToPointer
  | QFlagsToUInt
deriving DecidableEq

/-- Embeds struct CppFfiType from cpp_ffi_data.rs (conversion holds the
IndirectionChange of the CppToFfiTypeConversion wrapper). -/
structure CppFfiType where
  original_type : CppType
  ffi_type : CppType
  conversion : IndirectionChange

/-- Result of CppType::to_cpp_ffi_type: ok and err embed the Rust Result;
fatal embeds a failure of the assert macro inside the function (a panic). -/
inductive CppFfiResult where
  | ok (v : CppFfiType)
  | err (msg : String)
  | fatal

/-- True exactly on the embedded assert failure. -/
def CppFfiResult.isFatal : CppFfiResult → Bool
  | .fatal => true
  | _ => false

/-- Embeds the match on self.indirection in CppType::to_cpp_ffi_type
(cpp_type.rs lines 248 to 259): the new indirection of the result and the
conversion tag, or the unsupported-indirection error. -/
def normalizeIndirection :
    CppTypeIndirection → Except String (CppTypeIndirection × IndirectionChange)
  | .None => .ok (.None, .NoChange)
  | .Ptr => .ok (.Ptr, .NoChange)
  | .PtrPtr => .ok (.PtrPtr, .NoChange)
  | .Ref => .ok (.Ptr, .ReferenceToPointer)
  | _ => .error "Unsupported level of indirection"

/-- Embeds the per-element checks of the function-pointer loop in
CppType::to_cpp_ffi_type (cpp_type.rs lines 208 to 237); some msg is the
early-returned error. -/
def checkFnPtrArg (arg : CppType) : Option String :=
  match arg.base with
  | .TemplateParameter _ _ =>
    Option.some "Function pointers containing template parameters are not supported"
  | .FunctionPointer _ _ _ =>
    Option.some "Function pointers containing nested function pointers are not supported"
  | _ =>
    match arg.indirection with
    | .Ref | .PtrRef | .RValueRef =>
      Option.some "Function pointers containing references are not supported"
    | .Ptr | .PtrPtr => Option.none
    | .None =>
      match arg.base with
      | .Class _ _ =>
        Option.some "Function pointers containing classes by value are not supported"
      | _ => Option.none

/-- Runs checkFnPtrArg over a type list, returning the first error. -/
def checkFnPtrTypes : CppTypeList → Option String
  | .nil => Option.none
  | .cons a t =>
    match checkFnPtrArg a with
    | Option.some e => Option.some e
    | Option.none => checkFnPtrTypes t

/-- Embeds CppType::to_cpp_ffi_type from cpp_type.rs (lines 195 to 281).
The function-pointer loop pushes the return type after the arguments; the
assert on QFlags indirection is embedded as the fatal result. -/
def CppType.to_cpp_ffi_type : CppType → Bool → CppFfiResult
  | .mk c ind base, is_return_type =>
    match base with
    | .TemplateParameter _ _ => .err "Unsupported type"
    | .FunctionPointer return_type arguments allows_variable_arguments =>
      if allows_variable_arguments then
        .err "Function pointers with variadic arguments are not supported"
      else
        match checkFnPtrTypes
            (arguments.append (.cons return_type .nil)) with
        | Option.some e => .err e
        | Option.none =>
          .ok ⟨.mk c ind base, .mk c ind base, .NoChange⟩
    | _ =>
      match normalizeIndirection ind with
      | .error e => .err e
      | .ok (ind2, conv) =>
        match base with
        | .Class name targs =>
          if name = "QFlags" then
            if ind = .None then
              .ok ⟨.mk c ind base, .mk c ind2 (.BuiltInNumeric .UInt),
                .QFlagsToUInt⟩
            else
              .fatal
          else if ind = .None then
            .ok ⟨.mk c ind base, .mk (!is_return_type) .Ptr (.Class name targs),
              .ValueToPointer⟩
          else
            .ok ⟨.mk c ind base, .mk c ind2 (.Class name targs), conv⟩
        | _ => .ok ⟨.mk c ind base, .mk c ind2 base, conv⟩

/-- Boundary safety of one function-pointer argument or return type, read
off the acceptance conditions of the loop in CppType::to_cpp_ffi_type: no
template parameter, no nested function pointer, no reference-family
indirection, and no by-value class. -/
def fnPtrArgOk (t : CppType) : Bool :=
  !t.base.is_template_parameter && !t.base.is_function_pointer &&
    (match t.indirection with
     | .Ref | .PtrRef | .RValueRef => false
     | .Ptr | .PtrPtr => true
     | .None => !t.base.is_class)

/-- Boundary safety of every element of a type list. -/
def allArgsOk : CppTypeList → Bool
  | .nil => true
  | .cons a t => fnPtrArgOk a && allArgsOk t

/-!
Knowledge base (database.rs). The payload types of declarations live in
cpp_data.rs, which is not part of the sources under verification; they are
modelled from the spec where noted.
-/

/-- Embeds struct Target from common/target.rs (not under src/).
Modelled from the spec: target is a record of arch, os, family and abi;
the database code compares it only for structural equality. -/
structure Target where
  arch : String
  os : String
  family : String
  env : String
deriving DecidableEq

/-- Embeds struct CppCheckerEnv from database.rs. -/
structure CppCheckerEnv where
  target : Target
  cpp_library_version : Option String
deriving DecidableEq

/-- Embeds struct CppOriginLocation (not under src/). Modelled from the
spec: the exact location of a declaration inside its include file. -/
structure CppOriginLocation where
  include_file_path : String
  line : Nat
  column : Nat
deriving DecidableEq

/-- Embeds enum DatabaseItemSource from database.rs. -/
inductive DatabaseItemSource where
  | CppParser (include_file : String) (origin_location : CppOriginLocation)
  | ImplicitDestructor
  | TemplateInstantiation
  | NamespaceInfering
  | QtSignalArguments
deriving DecidableEq

/-- Embeds DatabaseItemSource::is_parser from database.rs (spelled
isParser here). -/
def DatabaseItemSource.isParser : DatabaseItemSource → Bool
  | .CppParser _ _ => true
  | _ => false

/-- Embeds struct CppCheckerInfo from database.rs. -/
structure CppCheckerInfo where
  env : CppCheckerEnv
  error : Option String
deriving DecidableEq

/-- Embeds struct CppCheckerInfoList from database.rs. -/
structure CppCheckerInfoList where
  items : List CppCheckerInfo
deriving DecidableEq

/-- Embeds enum CppCheckerAddResult from database.rs. -/
inductive CppCheckerAddResult where
  | Added
  | Changed (old : Option String)
  | Unchanged
deriving DecidableEq

/-- Embeds the body of CppCheckerInfoList::add on the underlying list: the
first entry with the given env is updated in place (mutation embedded as
rebuilding the list), otherwise a new entry is pushed at the end. -/
def checkerAddAux (env : CppCheckerEnv) (error : Option String) :
    List CppCheckerInfo → CppCheckerAddResult × List CppCheckerInfo
  | [] => (.Added, [⟨env, error⟩])
  | i :: rest =>
    if i.env = env then
      ((if i.error = error then .Unchanged else .Changed i.error),
        ⟨i.env, error⟩ :: rest)
    else
      let r := checkerAddAux env error rest
      (r.1, i :: r.2)

/-- Embeds CppCheckerInfoList::add from database.rs (lines 97 to 116),
returning the classification together with the updated list. -/
def CppCheckerInfoList.add (self : CppCheckerInfoList) (env : CppCheckerEnv)
    (error : Option String) : CppCheckerAddResult × CppCheckerInfoList :=
  let r := checkerAddAux env error self.items
  (r.1, ⟨r.2⟩)

/-- Embeds CppName (not under src/). Modelled from the spec: the name of a
declaration; the database code only stores and displays it. -/
abbrev CppName : Type := String

/-- Embeds struct CppTypeClassBase (not under src/). Modelled from the
spec: a class name with optional template arguments. -/
structure CppTypeClassBase where
  name : String
  template_arguments : CppTypeListOpt

/-- Structural equality of class bases. -/
def CppTypeClassBase.beq (a b : CppTypeClassBase) : Bool :=
  decide (a.name = b.name) &&
    CppTypeListOpt.beq a.template_arguments b.template_arguments

/-- Embeds enum CppTypeDataKind used by database.rs (enum or class). -/
inductive CppTypeDataKind where
  | Enum
  | Class (type_base : CppTypeClassBase)

/-- Structural equality of type-data kinds. -/
def CppTypeDataKind.beq : CppTypeDataKind → CppTypeDataKind → Bool
  | .Enum, .Enum => true
  | .Class b1, .Class b2 => CppTypeClassBase.beq b1 b2
  | _, _ => false

/-- Embeds struct CppTypeData (not under src/). Modelled from the spec: a
type declaration with a name and an enum-or-class kind. -/
structure CppTypeData where
  name : String
  kind : CppTypeDataKind

/-- Embeds CppTypeData::is_same (not under src/). Modelled from the spec:
identity compares only the structural signature, here the name and kind. -/
def CppTypeData.is_same (a b : CppTypeData) : Bool :=
  decide (a.name = b.name) && CppTypeDataKind.beq a.kind b.kind

/-- Embeds struct CppEnumValue (not under src/). Modelled from the spec and
the Display instance in database.rs: enum name, value name and value. -/
structure CppEnumValue where
  name : String
  enum_name : String
  value : Int
deriving DecidableEq

/-- Embeds CppEnumValue::is_same (not under src/). Modelled from the spec:
identity is structural equality of the signature fields. -/
def CppEnumValue.is_same (a b : CppEnumValue) : Bool := decide (a = b)

/-- Embeds struct CppFunction (not under src/). Modelled from the spec:
the structural signature of a function: name, signature and class
membership. -/
structure CppFunction where
  name : String
  class_membership : Option CppTypeClassBase
  arguments : CppTypeList
  return_type : CppType
  is_const : Bool

/-- Option-lifted structural equality of class bases. -/
def optClassBaseBeq : Option CppTypeClassBase → Option CppTypeClassBase → Bool
  | Option.none, Option.none => true
  | Option.some a, Option.some b => CppTypeClassBase.beq a b
  | _, _ => false

/-- Embeds CppFunction::is_same (not under src/). Modelled from the spec:
two function declarations are the same iff name, signature and class
membership match. -/
def CppFunction.is_same (a b : CppFunction) : Bool :=
  decide (a.name = b.name) && optClassBaseBeq a.class_membership b.class_membership &&
    CppTypeList.beq a.arguments b.arguments &&
    CppType.beq a.return_type b.return_type && decide (a.is_const = b.is_const)

/-- Embeds struct CppClassField (not under src/). Modelled from the spec:
a field name, its class and its type. -/
structure CppClassField where
  name : String
  class_type : CppTypeClassBase
  field_type : CppType

/-- Embeds CppClassField::is_same (not under src/). Modelled from the
spec: structural equality of the signature fields. -/
def CppClassField.is_same (a b : CppClassField) : Bool :=
  decide (a.name = b.name) && CppTypeClassBase.beq a.class_type b.class_type &&
    CppType.beq a.field_type b.field_type

/-- Embeds enum CppVisibility used by database.rs. -/
inductive CppVisibility where
  | Public
  | Protected
  | Private
deriving DecidableEq

/-- Embeds struct CppBaseSpecifier (not under src/). Modelled from the
spec: an inheritance edge with visibility, virtual flag and index. -/
structure CppBaseSpecifier where
  base_class_type : CppTypeClassBase
  derived_class_type : CppTypeClassBase
  is_virtual : Bool
  visibility : CppVisibility
  base_index : Nat

/-- Structural equality of base specifiers (the derived PartialEq used by
CppItemData::is_same). -/
def CppBaseSpecifier.beq (a b : CppBaseSpecifier) : Bool :=
  CppTypeClassBase.beq a.base_class_type b.base_class_type &&
    CppTypeClassBase.beq a.derived_class_type b.derived_class_type &&
    decide (a.is_virtual = b.is_virtual) && decide (a.visibility = b.visibility) &&
    decide (a.base_index = b.base_index)

/-- Embeds struct CppTemplateInstantiation (not under src/). Modelled from
the spec: a class name with the instantiated template arguments. -/
structure CppTemplateInstantiation where
  class_name : String
  template_arguments : CppTypeList

/-- Structural equality of template instantiations (the derived PartialEq
used by CppItemData::is_same). -/
def CppTemplateInstantiation.beq (a b : CppTemplateInstantiation) : Bool :=
  decide (a.class_name = b.class_name) &&
    CppTypeList.beq a.template_arguments b.template_arguments

/-- Embeds enum CppItemData from database.rs. The Type variant is renamed
to Typ because Type is reserved in Lean. -/
inductive CppItemData where
  | Namespace (name : CppName)
  | Typ (data : CppTypeData)
  | EnumValue (data : CppEnumValue)
  | Function (data : CppFunction)
  | ClassField (data : CppClassField)
  | ClassBase (data : CppBaseSpecifier)
  | TemplateInstantiation (data : CppTemplateInstantiation)
  | QtSignalArguments (args : CppTypeList)

/-- Embeds CppItemData::is_same from database.rs (lines 130 to 147): the
match has no Namespace arm, so two Namespace items are never the same. -/
def CppItemData.is_same : CppItemData → CppItemData → Bool
  | .Typ v, .Typ v2 => v.is_same v2
  | .EnumValue v, .EnumValue v2 => v.is_same v2
  | .Function v, .Function v2 => v.is_same v2
  | .ClassField v, .ClassField v2 => v.is_same v2
  | .ClassBase v, .ClassBase v2 => v.beq v2
  | .TemplateInstantiation v, .TemplateInstantiation v2 => v.beq v2
  | .QtSignalArguments v, .QtSignalArguments v2 => CppTypeList.beq v v2
  | _, _ => false

/-- Classification helper of the embedding: the item is a Namespace. -/
def CppItemData.is_namespace : CppItemData → Bool
  | .Namespace _ => true
  | _ => false

/-- Embeds struct CppFfiItem (not under src/). Modelled from the spec: a
generated boundary item; the database code never inspects its payload. -/
structure CppFfiItem where
  boundary : CppFfiType

/-- Embeds struct FfiItem from database.rs. -/
structure FfiItem where
  cpp_item : CppFfiItem
  checks : CppCheckerInfoList
  another_rust_item : Option Unit

/-- Embeds struct RustName (not under src/). Modelled from the spec: a
path of name parts for a generated wrapper symbol. -/
structure RustName where
  parts : List String

/-- Embeds struct RustItem from database.rs. -/
structure RustItem where
  path : RustName
  naming_strategy : Unit
  sclass_nested_path : Option RustName

/-- Embeds struct DatabaseItem from database.rs (lines 318 to 325). -/
structure DatabaseItem where
  cpp_data : CppItemData
  source : DatabaseItemSource
  ffi_items : Option (List FfiItem)
  rust_item : Option RustItem

/-- Embeds struct Database from database.rs. -/
structure Database where
  crate_name : String
  items : List DatabaseItem
  environments : List CppCheckerEnv
  next_ffi_id : Nat

/-- Embeds Database::empty from database.rs. -/
def Database.empty (crate_name : String) : Database :=
  ⟨crate_name, [], [], 0⟩

/-- Embeds the body of Database::add_cpp_data on the items list: scan for
the first structurally identical item; if found, upgrade its provenance
when the incoming source is parser data and the stored one is not, and
report not-new; otherwise push a fresh item at the end and report new. -/
def addCppDataAux (source : DatabaseItemSource) (data : CppItemData) :
    List DatabaseItem → Bool × List DatabaseItem
  | [] => (true, [⟨data, source, Option.none, Option.none⟩])
  | item :: rest =>
    if item.cpp_data.is_same data then
      (false,
        (if source.isParser && !item.source.isParser then
          { item with source := source }
        else item) :: rest)
    else
      let r := addCppDataAux source data rest
      (r.1, item :: r.2)

/-- Embeds Database::add_cpp_data from database.rs (lines 360 to 379),
returning the is-new flag together with the updated database. -/
def Database.add_cpp_data (self : Database) (source : DatabaseItemSource)
    (data : CppItemData) : Bool × Database :=
  let r := addCppDataAux source data self.items
  (r.1, { self with items := r.2 })

/-!
Name disambiguation (cpp_ffi_data.rs): base symbol names.
-/

/-- Embeds enum ReturnValueAllocationPlace from cpp_method.rs (not under
src/); its three variants are fixed by their uses in c_base_name. -/
inductive ReturnValueAllocationPlace where
  | Stack
  | Heap
  | NotApplicable
deriving DecidableEq

/-- Embeds enum CppOperator (not under src/). Modelled from the spec:
either a conversion operator carrying its target type, or any other
operator identified by its symbol name. -/
inductive CppOperator where
  | Conversion (target : CppType)
  | Other (name : String)

/-- Embeds CppOperator::c_name (not under src/). Modelled from the spec:
the symbol name of a non-conversion operator; c_base_name never calls it
on a conversion operator. -/
def CppOperator.c_name : CppOperator → String
  | .Conversion _ => "conversion"
  | .Other name => name

/-- Embeds enum CppMethodKind (not under src/). Modelled from the spec: a
method is a constructor, a destructor, or a plain function. -/
inductive CppMethodKind where
  | Constructor
  | Destructor
  | Regular
deriving DecidableEq

/-- Embeds struct CppMethodClassMembership (not under src/). Modelled from
the spec: the enclosing class and the const qualifier of a member. -/
structure CppMethodClassMembership where
  class_type : CppTypeClassBase
  is_const : Bool

/-- Embeds CppTypeClassBase::caption (not under src/). Modelled from the
spec: the enclosing-class caption used in the member scope prefix, the
class name with scope separators replaced. -/
def CppTypeClassBase.caption (c : CppTypeClassBase) : String :=
  replaceScopeSep c.name

/-- Embeds struct CppMethod (not under src/). Modelled from the spec,
keeping exactly the fields c_base_name reads: name, class membership,
operator and constructor-or-destructor kind. -/
structure CppMethod where
  name : String
  class_membership : Option CppMethodClassMembership
  operator : Option CppOperator
  kind : CppMethodKind

/-- Embeds CppMethod::is_constructor (not under src/), a classification
accessor on the modelled kind. -/
def CppMethod.is_constructor (m : CppMethod) : Bool :=
  match m.kind with
  | .Constructor => true
  | _ => false

/-- Embeds CppMethod::is_destructor (not under src/), a classification
accessor on the modelled kind. -/
def CppMethod.is_destructor (m : CppMethod) : Bool :=
  match m.kind with
  | .Destructor => true
  | _ => false

/-- Result of c_base_name: ok and err embed the Rust Result; fatal embeds
a panic reached through CppType::caption on a conversion operator whose
target type cannot be captioned. -/
inductive NameResult where
  | ok (s : String)
  | err (s : String)
  | fatal
deriving DecidableEq

/-- Embeds c_base_name from cpp_ffi_data.rs (lines 190 to 234). -/
def c_base_name (cpp_method : CppMethod)
    (allocation_place : ReturnValueAllocationPlace)
    (include_file : String) : NameResult :=
  let scopePre : String :=
    match cpp_method.class_membership with
    | Option.some info => info.class_type.caption ++ "_"
    | Option.none => include_file ++ "_G_"
  let add_place_note : String → String := fun name =>
    match allocation_place with
    | .Stack => name ++ "_to_output"
    | .Heap => name ++ "_as_ptr"
    | .NotApplicable => name
  if cpp_method.is_constructor then
    match allocation_place with
    | .Stack => .ok (scopePre ++ "constructor")
    | .Heap => .ok (scopePre ++ "new")
    | .NotApplicable => .err "NotApplicable is not allowed for constructor"
  else if cpp_method.is_destructor then
    match allocation_place with
    | .Stack => .ok (scopePre ++ "destructor")
    | .Heap => .ok (scopePre ++ "delete")
    | .NotApplicable => .err "NotApplicable is not allowed for constructor"
  else
    match cpp_method.operator with
    | Option.some (.Conversion target) =>
      match target.caption .Full with
      | Option.none => .fatal
      | Option.some cap =>
        .ok (scopePre ++ add_place_note ("convert_to_" ++ cap))
    | Option.some op => .ok (scopePre ++ add_place_note ("operator_" ++ op.c_name))
    | Option.none =>
      .ok (scopePre ++ add_place_note (replaceScopeSep cpp_method.name))

/-!
Concrete values used by witnesses and counterexamples.
-/

/-- Concrete declaration used in witnesses: an enum value. -/
def sampleEnumValue : CppItemData := .EnumValue ⟨"A", "E", 1⟩

/-- Concrete parser provenance used in witnesses. -/
def sampleParserSource : DatabaseItemSource :=
  .CppParser "math.h" ⟨"math.h", 3, 1⟩

/-- Concrete database holding one synthesized-provenance item, used in
witnesses. -/
def sampleDb : Database :=
  ⟨"crate0", [⟨sampleEnumValue, .ImplicitDestructor, Option.none, Option.none⟩],
    [], 0⟩

/-- Concrete checker environment used in witnesses. -/
def sampleEnv : CppCheckerEnv :=
  ⟨⟨"x86_64", "linux", "unix", "gnu"⟩, Option.none⟩

/-- Concrete free operator function used by the C9 counterexample. -/
def sampleOperatorMethod : CppMethod :=
  ⟨"operator+", Option.none, Option.some (.Other "add"), .Regular⟩

/-- Concrete free function named add, used by the C9 witness. -/
def sampleFreeAdd : CppMethod :=
  ⟨"add", Option.none, Option.none, .Regular⟩

/-!
Helper lemmas: reflexivity of the structural-equality functions.
-/

mutual

theorem cppTypeBeqRefl : (t : CppType) → CppType.beq t t = true
  | .mk c i b => by simp [CppType.beq, cppTypeBaseBeqRefl b]

theorem cppTypeBaseBeqRefl : (b : CppTypeBase) → CppTypeBase.beq b b = true
  | .Void => by simp [CppTypeBase.beq]
  | .BuiltInNumeric t => by simp [CppTypeBase.beq]
  | .Enum n => by simp [CppTypeBase.beq]
  | .SpecificNumeric n => by simp [CppTypeBase.beq]
  | .PointerSizedInteger n => by simp [CppTypeBase.beq]
  | .Class n a => by simp [CppTypeBase.beq, cppTypeListOptBeqRefl a]
  | .TemplateParameter l i => by simp [CppTypeBase.beq]
  | .FunctionPointer r a v => by
    simp [CppTypeBase.beq, cppTypeBeqRefl r, cppTypeListBeqRefl a]

theorem cppTypeListBeqRefl : (l : CppTypeList) → CppTypeList.beq l l = true
  | .nil => by simp [CppTypeList.beq]
  | .cons a t => by
    simp [CppTypeList.beq, cppTypeBeqRefl a, cppTypeListBeqRefl t]

theorem cppTypeListOptBeqRefl :
    (o : CppTypeListOpt) → CppTypeListOpt.beq o o = true
  | .none => by simp [CppTypeListOpt.beq]
  | .some l => by simp [CppTypeListOpt.beq, cppTypeListBeqRefl l]

end

theorem cppTypeClassBaseBeqRefl (c : CppTypeClassBase) : c.beq c = true := by
  simp [CppTypeClassBase.beq, cppTypeListOptBeqRefl]

theorem CppItemData.is_same_refl (d : CppItemData)
    (h : d.is_namespace = false) : d.is_same d = true := by
  cases d with
  | Namespace n => simp [CppItemData.is_namespace] at h
  | Typ v =>
    simp [CppItemData.is_same, CppTypeData.is_same]
    cases v.kind with
    | Enum => rfl
    | Class b => exact cppTypeClassBaseBeqRefl b
  | EnumValue v => simp [CppItemData.is_same, CppEnumValue.is_same]
  | Function v =>
    simp [CppItemData.is_same, CppFunction.is_same, cppTypeListBeqRefl,
      cppTypeBeqRefl]
    cases hm : v.class_membership with
    | none => rfl
    | some b => simp [optClassBaseBeq, cppTypeClassBaseBeqRefl]
  | ClassField v =>
    simp [CppItemData.is_same, CppClassField.is_same,
      cppTypeClassBaseBeqRefl, cppTypeBeqRefl]
  | ClassBase v =>
    simp [CppItemData.is_same, CppBaseSpecifier.beq, cppTypeClassBaseBeqRefl]
  | TemplateInstantiation v =>
    simp [CppItemData.is_same, CppTemplateInstantiation.beq,
      cppTypeListBeqRefl]
  | QtSignalArguments v =>
    simp [CppItemData.is_same, cppTypeListBeqRefl]

/-!
Claims about the FFI type mapper.
-/

/-- C1: a by-value class type other than QFlags maps to a pointer with
conversion ValueToPointer, and the constness of the boundary pointer is
the negation of the return-position flag, regardless of the constness of
the input type. -/
theorem c1_class_by_value_const_negation (t : CppType) (pos : Bool)
    (name : String) (targs : CppTypeListOpt)
    (hbase : t.base = CppTypeBase.Class name targs)
    (hq : name ≠ "QFlags")
    (hind : t.indirection = CppTypeIndirection.None) :
    t.to_cpp_ffi_type pos =
      CppFfiResult.ok
        ⟨t, CppType.mk (!pos) CppTypeIndirection.Ptr t.base,
          IndirectionChange.ValueToPointer⟩ := by
  obtain ⟨c, ind, base⟩ := t
  simp only [CppType.base] at hbase
  simp only [CppType.indirection] at hind
  subst hbase
  subst hind
  simp [CppType.to_cpp_ffi_type, normalizeIndirection, hq, CppType.base]

/-- Witness for C1 at the const class Rect: return position yields a
non-const pointer, parameter position a const pointer. -/
theorem c1_witness :
    CppType.to_cpp_ffi_type
        (.mk true .None (.Class "Rect" .none)) true =
      CppFfiResult.ok
        ⟨.mk true .None (.Class "Rect" .none),
          .mk false .Ptr (.Class "Rect" .none),
          .ValueToPointer⟩ ∧
    CppType.to_cpp_ffi_type
        (.mk true .None (.Class "Rect" .none)) false =
      CppFfiResult.ok
        ⟨.mk true .None (.Class "Rect" .none),
          .mk true .Ptr (.Class "Rect" .none),
          .ValueToPointer⟩ := by
  constructor
  · exact c1_class_by_value_const_negation
      (.mk true .None (.Class "Rect" .none)) true "Rect" .none rfl
      (by decide) rfl
  · exact c1_class_by_value_const_negation
      (.mk true .None (.Class "Rect" .none)) false "Rect" .none rfl
      (by decide) rfl

/-- C5 counterexample: a QFlags class with PtrRef indirection is rejected
by the indirection normalization with a recoverable error before the
QFlags branch is reached; the assert (embedded as the fatal result) is not
violated, contrary to the claim that any indirection other than None
violates the assert. -/
theorem c5_counterexample :
    CppType.to_cpp_ffi_type
        (.mk false .PtrRef (.Class "QFlags" .none)) false =
      CppFfiResult.err "Unsupported level of indirection" ∧
    (CppType.to_cpp_ffi_type
        (.mk false .PtrRef (.Class "QFlags" .none)) false).isFatal = false := by
  exact ⟨rfl, rfl⟩

/-- C5 amended: a QFlags class with indirection None maps to the unsigned
int primitive with conversion QFlagsToUInt for both position flags; with
indirection Ptr, Ref or PtrPtr the assert is violated (fatal); with PtrRef
or RValueRef the call is rejected earlier with the unsupported-indirection
error. -/
theorem c5_qflags_mapping (pos c : Bool) (targs : CppTypeListOpt) :
    (CppType.to_cpp_ffi_type (.mk c .None (.Class "QFlags" targs)) pos =
      CppFfiResult.ok
        ⟨.mk c .None (.Class "QFlags" targs),
          .mk c .None (.BuiltInNumeric .UInt), .QFlagsToUInt⟩) ∧
    (∀ ind, ind = CppTypeIndirection.Ptr ∨ ind = CppTypeIndirection.Ref ∨
        ind = CppTypeIndirection.PtrPtr →
      CppType.to_cpp_ffi_type (.mk c ind (.Class "QFlags" targs)) pos =
        CppFfiResult.fatal) ∧
    (∀ ind, ind = CppTypeIndirection.PtrRef ∨
        ind = CppTypeIndirection.RValueRef →
      CppType.to_cpp_ffi_type (.mk c ind (.Class "QFlags" targs)) pos =
        CppFfiResult.err "Unsupported level of indirection") := by
  refine ⟨rfl, ?_, ?_⟩
  · rintro ind (rfl | rfl | rfl) <;> rfl
  · rintro ind (rfl | rfl) <;> rfl

/-- Witness for C5: concrete QFlags values at both positions, and the
fatal assert at Ptr indirection. -/
theorem c5_witness :
    CppType.to_cpp_ffi_type (.mk false .None (.Class "QFlags" .none)) false =
      CppFfiResult.ok
        ⟨.mk false .None (.Class "QFlags" .none),
          .mk false .None (.BuiltInNumeric .UInt), .QFlagsToUInt⟩ ∧
    CppType.to_cpp_ffi_type (.mk false .Ptr (.Class "QFlags" .none)) true =
      CppFfiResult.fatal := by
  exact ⟨(c5_qflags_mapping false false .none).1,
    (c5_qflags_mapping true false .none).2.1 .Ptr (Or.inl rfl)⟩

/-- C6: the indirection normalization of to_cpp_ffi_type leaves None, Ptr
and PtrPtr unchanged with conversion NoChange, rewrites Ref to Ptr with
conversion ReferenceToPointer, and rejects PtrRef and RValueRef with the
unsupported-indirection error; this is reflected in the full mapper for
every non-function-pointer, non-template-parameter input (class-specific
rewrites excepted). -/
theorem c6_indirection_normalization :
    (normalizeIndirection .None = .ok (.None, .NoChange)) ∧
    (normalizeIndirection .Ptr = .ok (.Ptr, .NoChange)) ∧
    (normalizeIndirection .PtrPtr = .ok (.PtrPtr, .NoChange)) ∧
    (normalizeIndirection .Ref = .ok (.Ptr, .ReferenceToPointer)) ∧
    (normalizeIndirection .PtrRef = .error "Unsupported level of indirection") ∧
    (normalizeIndirection .RValueRef =
      .error "Unsupported level of indirection") ∧
    (∀ c ind base (pos : Bool), base.is_template_parameter = false →
      base.is_function_pointer = false →
      ind = CppTypeIndirection.PtrRef ∨ ind = CppTypeIndirection.RValueRef →
      CppType.to_cpp_ffi_type (.mk c ind base) pos =
        CppFfiResult.err "Unsupported level of indirection") ∧
    (∀ c base (pos : Bool), base.is_template_parameter = false →
      base.is_function_pointer = false → base.is_qflags = false →
      CppType.to_cpp_ffi_type (.mk c .Ref base) pos =
        CppFfiResult.ok
          ⟨.mk c .Ref base, .mk c .Ptr base, .ReferenceToPointer⟩) ∧
    (∀ c ind base (pos : Bool), base.is_template_parameter = false →
      base.is_function_pointer = false → base.is_class = false →
      ind = CppTypeIndirection.None ∨ ind = CppTypeIndirection.Ptr ∨
        ind = CppTypeIndirection.PtrPtr →
      CppType.to_cpp_ffi_type (.mk c ind base) pos =
        CppFfiResult.ok ⟨.mk c ind base, .mk c ind base, .NoChange⟩) := by
  refine ⟨rfl, rfl, rfl, rfl, rfl, rfl, ?_, ?_, ?_⟩
  · intro c ind base pos htp hfp hind
    rcases hind with rfl | rfl <;>
      cases base <;>
        simp_all [CppType.to_cpp_ffi_type, normalizeIndirection,
          CppTypeBase.is_template_parameter, CppTypeBase.is_function_pointer]
  · intro c base pos htp hfp hq
    cases base <;>
      simp_all [CppType.to_cpp_ffi_type, normalizeIndirection,
        CppTypeBase.is_template_parameter, CppTypeBase.is_function_pointer,
        CppTypeBase.is_qflags]
  · intro c ind base pos htp hfp hcl hind
    rcases hind with rfl | rfl | rfl <;>
      cases base <;>
        simp_all [CppType.to_cpp_ffi_type, normalizeIndirection,
          CppTypeBase.is_template_parameter, CppTypeBase.is_function_pointer,
          CppTypeBase.is_class]

/-- Witness for C6 at the spec example: a reference to class Widget in
parameter position maps to a pointer to Widget with conversion
ReferenceToPointer. -/
theorem c6_witness :
    CppType.to_cpp_ffi_type (.mk false .Ref (.Class "Widget" .none)) false =
      CppFfiResult.ok
        ⟨.mk false .Ref (.Class "Widget" .none),
          .mk false .Ptr (.Class "Widget" .none), .ReferenceToPointer⟩ := by
  exact c6_indirection_normalization.2.2.2.2.2.2.2.1 false
    (.Class "Widget" .none) false rfl rfl (by decide)

/-- C7 counterexample: CppTypeBase::caption panics (embedded as none) on a
TemplateParameter and on a FunctionPointer, contrary to the claim that no
input causes a panic and that every operation returns a value or a
recoverable error. -/
theorem c7_counterexample :
    CppTypeBase.caption (.TemplateParameter 0 0) = Option.none ∧
    CppTypeBase.caption
        (.FunctionPointer (.mk false .None .Void) .nil false) =
      Option.none := by
  constructor <;> simp [CppTypeBase.caption]

/-- C7 amended: to_cpp_ffi_type panics (fatal) exactly on a QFlags class
with indirection Ptr, Ref or PtrPtr and otherwise returns a value or a
recoverable error; to_cpp_code returns unsupported errors (not panics) for
template parameters and variadic function pointers; but caption panics on
TemplateParameter and FunctionPointer bases. -/
theorem c7_panic_characterization :
    (∀ (t : CppType) (pos : Bool),
      (t.to_cpp_ffi_type pos).isFatal = true ↔
        (t.base.is_qflags = true ∧
          (t.indirection = CppTypeIndirection.Ptr ∨
            t.indirection = CppTypeIndirection.Ref ∨
            t.indirection = CppTypeIndirection.PtrPtr))) ∧
    (∀ l i, CppTypeBase.to_cpp_code (.TemplateParameter l i) =
      .error "template parameters are not supported here yet") ∧
    (∀ ret args, CppTypeBase.to_cpp_code (.FunctionPointer ret args true) =
      .error "Function pointers with variadic arguments are not supported") ∧
    (∀ l i, CppTypeBase.caption (.TemplateParameter l i) = Option.none) ∧
    (∀ ret args v, CppTypeBase.caption (.FunctionPointer ret args v) =
      Option.none) := by
  refine ⟨?_, ?_, ?_, ?_, ?_⟩
  · intro t pos
    obtain ⟨c, ind, base⟩ := t
    cases base with
    | Class name targs =>
      by_cases hq : name = "QFlags" <;>
        cases ind <;>
          simp [CppType.to_cpp_ffi_type, normalizeIndirection, hq,
            CppFfiResult.isFatal, CppTypeBase.is_qflags, CppType.base,
            CppType.indirection]
    | FunctionPointer ret args v =>
      cases v with
      | false =>
        cases h : checkFnPtrTypes (args.append (.cons ret .nil)) <;>
          simp [CppType.to_cpp_ffi_type, h, CppFfiResult.isFatal,
            CppTypeBase.is_qflags, CppType.base]
      | true =>
        simp [CppType.to_cpp_ffi_type, CppFfiResult.isFatal,
          CppTypeBase.is_qflags, CppType.base]
    | Void =>
      cases ind <;>
        simp [CppType.to_cpp_ffi_type, normalizeIndirection,
          CppFfiResult.isFatal, CppTypeBase.is_qflags, CppType.base]
    | BuiltInNumeric t =>
      cases ind <;>
        simp [CppType.to_cpp_ffi_type, normalizeIndirection,
          CppFfiResult.isFatal, CppTypeBase.is_qflags, CppType.base]
    | Enum n =>
      cases ind <;>
        simp [CppType.to_cpp_ffi_type, normalizeIndirection,
          CppFfiResult.isFatal, CppTypeBase.is_qflags, CppType.base]
    | SpecificNumeric n =>
      cases ind <;>
        simp [CppType.to_cpp_ffi_type, normalizeIndirection,
          CppFfiResult.isFatal, CppTypeBase.is_qflags, CppType.base]
    | PointerSizedInteger n =>
      cases ind <;>
        simp [CppType.to_cpp_ffi_type, normalizeIndirection,
          CppFfiResult.isFatal, CppTypeBase.is_qflags, CppType.base]
    | TemplateParameter l i =>
      simp [CppType.to_cpp_ffi_type, CppFfiResult.isFatal,
        CppTypeBase.is_qflags, CppType.base]
  · intro l i
    simp [CppTypeBase.to_cpp_code]
  · intro ret args
    simp [CppTypeBase.to_cpp_code]
  · intro l i
    simp [CppTypeBase.caption]
  · intro ret args v
    simp [CppTypeBase.caption]

/-- Witness for C7 amended: the assert is reached at a QFlags pointer. -/
theorem c7_witness :
    (CppType.to_cpp_ffi_type
        (.mk false .Ptr (.Class "QFlags" .none)) false).isFatal = true := by
  exact (c7_panic_characterization.1
    (.mk false .Ptr (.Class "QFlags" .none)) false).mpr ⟨by decide, Or.inl rfl⟩

/-- Every boundary-safe function-pointer component passes the checks of
the loop in to_cpp_ffi_type. -/
theorem checkFnPtrArg_of_ok (t : CppType) (h : fnPtrArgOk t = true) :
    checkFnPtrArg t = Option.none := by
  obtain ⟨c, ind, base⟩ := t
  cases base <;> cases ind <;>
    simp_all [fnPtrArgOk, checkFnPtrArg, CppTypeBase.is_template_parameter,
      CppTypeBase.is_function_pointer, CppTypeBase.is_class, CppType.base,
      CppType.indirection]

/-- A list of boundary-safe argument types followed by a boundary-safe
return type passes the whole function-pointer check loop. -/
theorem checkFnPtrTypes_all_ok : (l : CppTypeList) → (r : CppType) →
    allArgsOk l = true → fnPtrArgOk r = true →
    checkFnPtrTypes (l.append (.cons r .nil)) = Option.none
  | .nil, r, hl, hr => by
    simp [CppTypeList.append, checkFnPtrTypes, checkFnPtrArg_of_ok r hr]
  | .cons a t, r, hl, hr => by
    simp only [allArgsOk, Bool.and_eq_true] at hl
    simp [CppTypeList.append, checkFnPtrTypes, checkFnPtrArg_of_ok a hl.1,
      checkFnPtrTypes_all_ok t r hl.2 hr]

/-- C8: to_cpp_ffi_type rejects template parameters with the unsupported
type error and variadic function pointers with their own error for every
position flag, and maps a function pointer whose components are all
boundary-safe to itself unchanged with conversion NoChange. -/
theorem c8_template_and_function_pointer :
    (∀ (t : CppType) (pos : Bool) l i,
      t.base = CppTypeBase.TemplateParameter l i →
      t.to_cpp_ffi_type pos = CppFfiResult.err "Unsupported type") ∧
    (∀ c ind ret args (pos : Bool),
      CppType.to_cpp_ffi_type
          (.mk c ind (.FunctionPointer ret args true)) pos =
        CppFfiResult.err
          "Function pointers with variadic arguments are not supported") ∧
    (∀ c ind ret args (pos : Bool),
      allArgsOk args = true → fnPtrArgOk ret = true →
      CppType.to_cpp_ffi_type
          (.mk c ind (.FunctionPointer ret args false)) pos =
        CppFfiResult.ok
          ⟨.mk c ind (.FunctionPointer ret args false),
            .mk c ind (.FunctionPointer ret args false), .NoChange⟩) := by
  refine ⟨?_, ?_, ?_⟩
  · intro t pos l i hb
    obtain ⟨c, ind, base⟩ := t
    simp only [CppType.base] at hb
    subst hb
    rfl
  · intro c ind ret args pos
    rfl
  · intro c ind ret args pos hargs hret
    simp [CppType.to_cpp_ffi_type, checkFnPtrTypes_all_ok args ret hargs hret]

/-- Witness for C8: a template parameter and a variadic function pointer
are rejected; a function pointer taking int and returning void maps to
itself. -/
theorem c8_witness :
    CppType.to_cpp_ffi_type (.mk false .None (.TemplateParameter 0 0)) true =
      CppFfiResult.err "Unsupported type" ∧
    CppType.to_cpp_ffi_type
        (.mk false .None
          (.FunctionPointer (.mk false .None .Void)
            (.cons (.mk false .None (.BuiltInNumeric .Int)) .nil) false))
        false =
      CppFfiResult.ok
        ⟨.mk false .None
            (.FunctionPointer (.mk false .None .Void)
              (.cons (.mk false .None (.BuiltInNumeric .Int)) .nil) false),
          .mk false .None
            (.FunctionPointer (.mk false .None .Void)
              (.cons (.mk false .None (.BuiltInNumeric .Int)) .nil) false),
          .NoChange⟩ := by
  constructor
  · exact c8_template_and_function_pointer.1
      (.mk false .None (.TemplateParameter 0 0)) true 0 0 rfl
  · exact c8_template_and_function_pointer.2.2 false .None
      (.mk false .None .Void)
      (.cons (.mk false .None (.BuiltInNumeric .Int)) .nil) false
      (by decide) (by decide)

/-!
Lemmas about the checker-info upsert.
-/

/-- When no entry has the given environment, the upsert appends. -/
theorem checkerAddAux_not_found (env : CppCheckerEnv) (err : Option String)
    (items : List CppCheckerInfo) (h : ∀ x ∈ items, x.env ≠ env) :
    checkerAddAux env err items = (.Added, items ++ [⟨env, err⟩]) := by
  induction items with
  | nil => rfl
  | cons i rest ih =>
    simp only [List.mem_cons, forall_eq_or_imp] at h
    simp [checkerAddAux, h.1, ih h.2]

/-- The upsert updates the first entry with the given environment. -/
theorem checkerAddAux_found (env : CppCheckerEnv) (err : Option String)
    (pre : List CppCheckerInfo) (it : CppCheckerInfo)
    (post : List CppCheckerInfo)
    (hpre : ∀ x ∈ pre, x.env ≠ env) (hit : it.env = env) :
    checkerAddAux env err (pre ++ it :: post) =
      ((if it.error = err then .Unchanged else .Changed it.error),
        pre ++ ⟨it.env, err⟩ :: post) := by
  induction pre with
  | nil => simp [checkerAddAux, hit]
  | cons i rest ih =>
    simp only [List.mem_cons, forall_eq_or_imp] at hpre
    simp [checkerAddAux, hpre.1, ih hpre.2]

/-- Every entry after the upsert has the environment of an old entry or
the upserted environment. -/
theorem checkerAddAux_mem (env : CppCheckerEnv) (err : Option String)
    (items : List CppCheckerInfo) :
    ∀ y ∈ (checkerAddAux env err items).2,
      (∃ x ∈ items, y.env = x.env) ∨ y.env = env := by
  induction items with
  | nil =>
    intro y hy
    simp [checkerAddAux] at hy
    right
    rw [hy]
  | cons i rest ih =>
    intro y hy
    by_cases hc : i.env = env
    · simp [checkerAddAux, hc] at hy
      rcases hy with hy | hy
      · right
        rw [hy]
      · exact Or.inl ⟨y, List.mem_cons_of_mem i hy, rfl⟩
    · simp [checkerAddAux, hc] at hy
      rcases hy with hy | hy
      · exact Or.inl ⟨i, List.mem_cons_self i rest, by rw [hy]⟩
      · rcases ih y hy with ⟨x, hx, e⟩ | e
        · exact Or.inl ⟨x, List.mem_cons_of_mem i hx, e⟩
        · exact Or.inr e

/-- The upsert preserves distinctness of environments. -/
theorem checkerAddAux_pairwise (env : CppCheckerEnv) (err : Option String)
    (items : List CppCheckerInfo)
    (h : items.Pairwise (fun a b => a.env ≠ b.env)) :
    (checkerAddAux env err items).2.Pairwise (fun a b => a.env ≠ b.env) := by
  induction items with
  | nil => simp [checkerAddAux]
  | cons i rest ih =>
    rw [List.pairwise_cons] at h
    by_cases hc : i.env = env
    · simp only [checkerAddAux, if_pos hc]
      rw [List.pairwise_cons]
      exact ⟨fun b hb => h.1 b hb, h.2⟩
    · simp only [checkerAddAux, if_neg hc]
      rw [List.pairwise_cons]
      refine ⟨?_, ih h.2⟩
      intro b hb
      rcases checkerAddAux_mem env err rest b hb with ⟨x, hx, e⟩ | e
      · rw [e]
        exact h.1 x hx
      · rw [e]
        exact hc

/-!
Lemmas about the declaration merge.
-/

/-- When no existing item is structurally identical, the merge appends a
fresh item and reports new. -/
theorem addAux_not_found (source : DatabaseItemSource) (data : CppItemData)
    (items : List DatabaseItem)
    (h : ∀ x ∈ items, x.cpp_data.is_same data = false) :
    addCppDataAux source data items =
      (true, items ++ [⟨data, source, Option.none, Option.none⟩]) := by
  induction items with
  | nil => rfl
  | cons i rest ih =>
    simp only [List.mem_cons, forall_eq_or_imp] at h
    simp [addCppDataAux, h.1, ih h.2]

/-- The merge updates the first structurally identical item: its source is
upgraded exactly when the incoming source is parser data and the stored
one is not, and nothing else changes. -/
theorem addAux_found (source : DatabaseItemSource) (data : CppItemData)
    (pre : List DatabaseItem) (it : DatabaseItem) (post : List DatabaseItem)
    (hpre : ∀ x ∈ pre, x.cpp_data.is_same data = false)
    (hit : it.cpp_data.is_same data = true) :
    addCppDataAux source data (pre ++ it :: post) =
      (false,
        pre ++ (if source.isParser && !it.source.isParser then
            { it with source := source }
          else it) :: post) := by
  induction pre with
  | nil => simp [addCppDataAux, hit]
  | cons i rest ih =>
    simp only [List.mem_cons, forall_eq_or_imp] at hpre
    simp [addCppDataAux, hpre.1, ih hpre.2]

/-- Every item after a merge carries the declaration of an old item or the
merged declaration. -/
theorem addAux_mem (source : DatabaseItemSource) (data : CppItemData)
    (items : List DatabaseItem) :
    ∀ y ∈ (addCppDataAux source data items).2,
      (∃ x ∈ items, y.cpp_data = x.cpp_data) ∨ y.cpp_data = data := by
  induction items with
  | nil =>
    intro y hy
    simp [addCppDataAux] at hy
    right
    rw [hy]
  | cons i rest ih =>
    intro y hy
    cases hc : i.cpp_data.is_same data with
    | true =>
      simp [addCppDataAux, hc] at hy
      rcases hy with hy | hy
      · left
        refine ⟨i, List.mem_cons_self i rest, ?_⟩
        rw [hy]
        split <;> rfl
      · exact Or.inl ⟨y, List.mem_cons_of_mem i hy, rfl⟩
    | false =>
      simp [addCppDataAux, hc] at hy
      rcases hy with hy | hy
      · exact Or.inl ⟨i, List.mem_cons_self i rest, by rw [hy]⟩
      · rcases ih y hy with ⟨x, hx, e⟩ | e
        · exact Or.inl ⟨x, List.mem_cons_of_mem i hx, e⟩
        · exact Or.inr e

/-- The merge preserves the invariant that no two items are structurally
identical (along scan order). -/
theorem addAux_pairwise (source : DatabaseItemSource) (data : CppItemData)
    (items : List DatabaseItem)
    (h : items.Pairwise (fun a b => a.cpp_data.is_same b.cpp_data = false)) :
    (addCppDataAux source data items).2.Pairwise
      (fun a b => a.cpp_data.is_same b.cpp_data = false) := by
  induction items with
  | nil => simp [addCppDataAux]
  | cons i rest ih =>
    rw [List.pairwise_cons] at h
    cases hc : i.cpp_data.is_same data with
    | true =>
      have hgoal : (addCppDataAux source data (i :: rest)).2 =
          (if source.isParser && !i.source.isParser then
            { i with source := source }
          else i) :: rest := by
        simp [addCppDataAux, hc]
      rw [hgoal, List.pairwise_cons]
      constructor
      · intro b hb
        cases hp : source.isParser && !i.source.isParser <;> simp [hp] <;>
          exact h.1 b hb
      · exact h.2
    | false =>
      have hgoal : (addCppDataAux source data (i :: rest)).2 =
          i :: (addCppDataAux source data rest).2 := by
        simp [addCppDataAux, hc]
      rw [hgoal, List.pairwise_cons]
      refine ⟨?_, ih h.2⟩
      intro b hb
      rcases addAux_mem source data rest b hb with ⟨x, hx, e⟩ | e
      · rw [e]
        exact h.1 x hx
      · rw [e]
        exact hc

/-- Reporting new means exactly that a fresh item was appended at the end
with empty boundary and wrapper state. -/
theorem addAux_true_shape (source : DatabaseItemSource) (data : CppItemData)
    (items : List DatabaseItem)
    (h : (addCppDataAux source data items).1 = true) :
    (addCppDataAux source data items).2 =
      items ++ [⟨data, source, Option.none, Option.none⟩] := by
  induction items with
  | nil => rfl
  | cons i rest ih =>
    cases hc : i.cpp_data.is_same data with
    | true => simp [addCppDataAux, hc] at h
    | false =>
      simp only [addCppDataAux, hc] at h ⊢
      simp at h ⊢
      rw [ih h]

/-- Merging the same pair twice changes nothing the second time, provided
the declaration is structurally identical to itself. -/
theorem addAux_twice (source : DatabaseItemSource) (data : CppItemData)
    (hrefl : data.is_same data = true) (items : List DatabaseItem) :
    addCppDataAux source data (addCppDataAux source data items).2 =
      (false, (addCppDataAux source data items).2) := by
  induction items with
  | nil => simp [addCppDataAux, hrefl]
  | cons i rest ih =>
    cases hc : i.cpp_data.is_same data with
    | true =>
      cases hp : source.isParser && !i.source.isParser with
      | true => simp [addCppDataAux, hc, hp]
      | false => simp [addCppDataAux, hc, hp]
    | false => simp [addCppDataAux, hc, ih]

/-- Parser provenance at any position survives any later merge, with the
declaration unchanged. -/
theorem addAux_parser_preserved (source : DatabaseItemSource)
    (data : CppItemData) :
    ∀ (items : List DatabaseItem) (i : Nat) (item : DatabaseItem),
      items[i]? = some item → item.source.isParser = true →
      ∃ item2, (addCppDataAux source data items).2[i]? = some item2 ∧
        item2.source.isParser = true ∧ item2.cpp_data = item.cpp_data := by
  intro items
  induction items with
  | nil =>
    intro i item h
    simp at h
  | cons a rest ih =>
    intro i item h hp
    cases hc : a.cpp_data.is_same data with
    | true =>
      cases i with
      | zero =>
        simp only [List.getElem?_cons_zero, Option.some.injEq] at h
        subst h
        refine ⟨a, ?_, hp, rfl⟩
        simp [addCppDataAux, hc, hp]
      | succ n =>
        simp only [List.getElem?_cons_succ] at h
        refine ⟨item, ?_, hp, rfl⟩
        simp [addCppDataAux, hc, h]
    | false =>
      cases i with
      | zero =>
        simp only [List.getElem?_cons_zero, Option.some.injEq] at h
        subst h
        exact ⟨a, by simp [addCppDataAux, hc], hp, rfl⟩
      | succ n =>
        simp only [List.getElem?_cons_succ] at h
        obtain ⟨item2, h2, hp2, hd2⟩ := ih n item h hp
        exact ⟨item2, by simp [addCppDataAux, hc, h2], hp2, hd2⟩

/-!
Claims about the knowledge-base merge and the checker-info upsert.
-/

/-- C2: merging a parser-sourced declaration over an existing synthesized
item overwrites the provenance in place and reports not-new; any
non-upgrading combination (synthesized over anything, or parser over
parser) leaves the database unchanged; and parser provenance at any
position is never replaced by any merge. -/
theorem c2_parser_provenance_priority :
    (∀ (db : Database) (source : DatabaseItemSource) (data : CppItemData)
        (pre : List DatabaseItem) (it : DatabaseItem)
        (post : List DatabaseItem),
      db.items = pre ++ it :: post →
      (∀ x ∈ pre, x.cpp_data.is_same data = false) →
      it.cpp_data.is_same data = true →
      source.isParser = true → it.source.isParser = false →
      db.add_cpp_data source data =
        (false,
          { db with items := pre ++ { it with source := source } :: post })) ∧
    (∀ (db : Database) (source : DatabaseItemSource) (data : CppItemData)
        (pre : List DatabaseItem) (it : DatabaseItem)
        (post : List DatabaseItem),
      db.items = pre ++ it :: post →
      (∀ x ∈ pre, x.cpp_data.is_same data = false) →
      it.cpp_data.is_same data = true →
      (source.isParser = false ∨ it.source.isParser = true) →
      db.add_cpp_data source data = (false, db)) ∧
    (∀ (db : Database) (source : DatabaseItemSource) (data : CppItemData)
        (i : Nat) (item : DatabaseItem),
      db.items[i]? = some item → item.source.isParser = true →
      ∃ item2, (db.add_cpp_data source data).2.items[i]? = some item2 ∧
        item2.source.isParser = true ∧ item2.cpp_data = item.cpp_data) := by
  refine ⟨?_, ?_, ?_⟩
  · intro db source data pre it post hitems hpre hit hs hi
    have h := addAux_found source data pre it post hpre hit
    simp only [hs, hi, Bool.not_false, Bool.and_true, if_pos] at h
    simp [Database.add_cpp_data, hitems, h]
  · intro db source data pre it post hitems hpre hit hnp
    have hcond : (source.isParser && !it.source.isParser) = false := by
      rcases hnp with h1 | h1
      · rw [h1]
        rfl
      · rw [h1]
        simp
    have h := addAux_found source data pre it post hpre hit
    simp only [hcond, Bool.false_eq_true, if_false] at h
    have h2 : db.add_cpp_data source data =
        (false, { db with items := pre ++ it :: post }) := by
      simp [Database.add_cpp_data, hitems, h]
    rw [h2, ← hitems]
  · intro db source data i item h1 h2
    exact addAux_parser_preserved source data db.items i item h1 h2

/-- Witness for C2: a synthesized enum-value item is upgraded to parser
provenance by a parser merge of the same declaration. -/
theorem c2_witness :
    sampleDb.add_cpp_data sampleParserSource sampleEnumValue =
      (false,
        { sampleDb with
          items := [⟨sampleEnumValue, sampleParserSource, Option.none,
            Option.none⟩] }) := by
  exact c2_parser_provenance_priority.1 sampleDb sampleParserSource
    sampleEnumValue []
    ⟨sampleEnumValue, .ImplicitDestructor, Option.none, Option.none⟩ [] rfl
    (by intro x hx; simp at hx) (by decide) rfl rfl

/-- C3 counterexample: the is_same match in database.rs has no Namespace
arm, so merging the same namespace declaration twice appends twice: the
second call also returns new, and the item count becomes two, contrary to
the claim that the second identical merge returns not-new and leaves the
count unchanged. -/
theorem c3_counterexample :
    (((Database.empty "c").add_cpp_data .ImplicitDestructor
        (.Namespace "ns")).1 = true) ∧
    ((((Database.empty "c").add_cpp_data .ImplicitDestructor
          (.Namespace "ns")).2.add_cpp_data .ImplicitDestructor
        (.Namespace "ns")).1 = true) ∧
    ((((Database.empty "c").add_cpp_data .ImplicitDestructor
          (.Namespace "ns")).2.add_cpp_data .ImplicitDestructor
        (.Namespace "ns")).2.items.length = 2) := ⟨rfl, rfl, rfl⟩

/-- C3 amended: for non-Namespace declarations the merge is idempotent:
a merge with no structurally identical item appends exactly one item and
returns new, a merge that finds one returns not-new with the count
unchanged, and the immediate second merge of the same pair returns
not-new and changes nothing; moreover no two items structurally identical
along scan order ever coexist, for any declaration. -/
theorem c3_merge_idempotence :
    (∀ (db : Database) (source : DatabaseItemSource) (data : CppItemData),
      (∀ x ∈ db.items, x.cpp_data.is_same data = false) →
      db.add_cpp_data source data =
        (true,
          { db with
            items := db.items ++
              [⟨data, source, Option.none, Option.none⟩] })) ∧
    (∀ (db : Database) (source : DatabaseItemSource) (data : CppItemData)
        (pre : List DatabaseItem) (it : DatabaseItem)
        (post : List DatabaseItem),
      db.items = pre ++ it :: post →
      (∀ x ∈ pre, x.cpp_data.is_same data = false) →
      it.cpp_data.is_same data = true →
      (db.add_cpp_data source data).1 = false ∧
      (db.add_cpp_data source data).2.items.length = db.items.length) ∧
    (∀ (db : Database) (source : DatabaseItemSource) (data : CppItemData),
      data.is_namespace = false →
      (db.add_cpp_data source data).2.add_cpp_data source data =
        (false, (db.add_cpp_data source data).2)) ∧
    (∀ (db : Database) (source : DatabaseItemSource) (data : CppItemData),
      db.items.Pairwise (fun a b => a.cpp_data.is_same b.cpp_data = false) →
      (db.add_cpp_data source data).2.items.Pairwise
        (fun a b => a.cpp_data.is_same b.cpp_data = false)) := by
  refine ⟨?_, ?_, ?_, ?_⟩
  · intro db source data h
    simp [Database.add_cpp_data, addAux_not_found source data db.items h]
  · intro db source data pre it post hitems hpre hit
    have h := addAux_found source data pre it post hpre hit
    constructor
    · simp [Database.add_cpp_data, hitems, h]
    · simp [Database.add_cpp_data, hitems, h]
  · intro db source data hns
    have h := addAux_twice source data (CppItemData.is_same_refl data hns)
      db.items
    simp [Database.add_cpp_data, h]
  · intro db source data h
    exact addAux_pairwise source data db.items h

/-- Witness for C3 amended: merging the enum value into the empty database
appends it, and the immediate second merge changes nothing. -/
theorem c3_witness :
    (Database.empty "m").add_cpp_data sampleParserSource sampleEnumValue =
      (true, ⟨"m", [⟨sampleEnumValue, sampleParserSource, Option.none,
        Option.none⟩], [], 0⟩) ∧
    (sampleDb.add_cpp_data sampleParserSource sampleEnumValue).2.add_cpp_data
        sampleParserSource sampleEnumValue =
      (false, (sampleDb.add_cpp_data sampleParserSource sampleEnumValue).2) := by
  constructor
  · exact c3_merge_idempotence.1 (Database.empty "m") sampleParserSource
      sampleEnumValue (by intro x hx; simp [Database.empty] at hx)
  · exact c3_merge_idempotence.2.2.1 sampleDb sampleParserSource
      sampleEnumValue rfl

/-- C4: the checker-info upsert appends a new entry and reports Added when
the environment is absent, reports Unchanged when the stored error equals
the new one, reports Changed with the previous error and replaces it when
they differ, and keeps at most one entry per environment. -/
theorem c4_checker_info_upsert :
    (∀ (l : CppCheckerInfoList) (env : CppCheckerEnv) (error : Option String),
      (∀ x ∈ l.items, x.env ≠ env) →
      l.add env error = (.Added, ⟨l.items ++ [⟨env, error⟩]⟩)) ∧
    (∀ (l : CppCheckerInfoList) (env : CppCheckerEnv) (error : Option String)
        (pre : List CppCheckerInfo) (it : CppCheckerInfo)
        (post : List CppCheckerInfo),
      l.items = pre ++ it :: post →
      (∀ x ∈ pre, x.env ≠ env) → it.env = env → it.error = error →
      l.add env error = (.Unchanged, l)) ∧
    (∀ (l : CppCheckerInfoList) (env : CppCheckerEnv) (error : Option String)
        (pre : List CppCheckerInfo) (it : CppCheckerInfo)
        (post : List CppCheckerInfo),
      l.items = pre ++ it :: post →
      (∀ x ∈ pre, x.env ≠ env) → it.env = env → it.error ≠ error →
      l.add env error =
        (.Changed it.error, ⟨pre ++ ⟨it.env, error⟩ :: post⟩)) ∧
    (∀ (l : CppCheckerInfoList) (env : CppCheckerEnv) (error : Option String),
      l.items.Pairwise (fun a b => a.env ≠ b.env) →
      (l.add env error).2.items.Pairwise (fun a b => a.env ≠ b.env)) := by
  refine ⟨?_, ?_, ?_, ?_⟩
  · intro l env error h
    simp [CppCheckerInfoList.add, checkerAddAux_not_found env error l.items h]
  · intro l env error pre it post hitems hpre henv herr
    have h := checkerAddAux_found env error pre it post hpre henv
    rw [if_pos herr] at h
    have h2 : checkerAddAux env error l.items = (.Unchanged, l.items) := by
      rw [hitems, h, ← herr]
    simp [CppCheckerInfoList.add, h2]
  · intro l env error pre it post hitems hpre henv herr
    have h := checkerAddAux_found env error pre it post hpre henv
    rw [if_neg herr] at h
    simp [CppCheckerInfoList.add, hitems, h]
  · intro l env error h
    exact checkerAddAux_pairwise env error l.items h

/-- Witness for C4: the Added, Unchanged and Changed outcomes at one
concrete environment. -/
theorem c4_witness :
    (⟨[]⟩ : CppCheckerInfoList).add sampleEnv Option.none =
      (.Added, ⟨[⟨sampleEnv, Option.none⟩]⟩) ∧
    (⟨[⟨sampleEnv, Option.none⟩]⟩ : CppCheckerInfoList).add sampleEnv
        Option.none =
      (.Unchanged, ⟨[⟨sampleEnv, Option.none⟩]⟩) ∧
    (⟨[⟨sampleEnv, Option.none⟩]⟩ : CppCheckerInfoList).add sampleEnv
        (Option.some "boom") =
      (.Changed Option.none, ⟨[⟨sampleEnv, Option.some "boom"⟩]⟩) := by
  refine ⟨?_, ?_, ?_⟩
  · exact c4_checker_info_upsert.1 ⟨[]⟩ sampleEnv Option.none
      (by intro x hx; simp at hx)
  · exact c4_checker_info_upsert.2.1 ⟨[⟨sampleEnv, Option.none⟩]⟩ sampleEnv
      Option.none [] ⟨sampleEnv, Option.none⟩ [] rfl
      (by intro x hx; simp at hx) rfl rfl
  · exact c4_checker_info_upsert.2.2.1 ⟨[⟨sampleEnv, Option.none⟩]⟩ sampleEnv
      (Option.some "boom") [] ⟨sampleEnv, Option.none⟩ [] rfl
      (by intro x hx; simp at hx) rfl (by simp)

/-- C10: a merge that finds a structurally identical item changes at most
the source field of that item and nothing else (declaration data, boundary items,
wrapper item, positions and count all unchanged), and a merge that
reports new appends exactly one fresh item with empty boundary and
wrapper state. -/
theorem c10_merge_frame :
    (∀ (db : Database) (source : DatabaseItemSource) (data : CppItemData)
        (pre : List DatabaseItem) (it : DatabaseItem)
        (post : List DatabaseItem),
      db.items = pre ++ it :: post →
      (∀ x ∈ pre, x.cpp_data.is_same data = false) →
      it.cpp_data.is_same data = true →
      ∃ s2, db.add_cpp_data source data =
          (false,
            { db with items := pre ++ { it with source := s2 } :: post }) ∧
        (s2 = source ∨ s2 = it.source)) ∧
    (∀ (db : Database) (source : DatabaseItemSource) (data : CppItemData),
      (db.add_cpp_data source data).1 = true →
      (db.add_cpp_data source data).2.items =
        db.items ++ [⟨data, source, Option.none, Option.none⟩]) := by
  constructor
  · intro db source data pre it post hitems hpre hit
    have h := addAux_found source data pre it post hpre hit
    cases hp : source.isParser && !it.source.isParser with
    | true =>
      refine ⟨source, ?_, Or.inl rfl⟩
      simp only [hp, if_pos] at h
      simp [Database.add_cpp_data, hitems, h]
    | false =>
      refine ⟨it.source, ?_, Or.inr rfl⟩
      simp only [hp, Bool.false_eq_true, if_false] at h
      simp [Database.add_cpp_data, hitems, h]
  · intro db source data h
    exact addAux_true_shape source data db.items h

/-- Witness for C10: a merge into the empty database appends one fresh
item with no boundary items and no wrapper item. -/
theorem c10_witness :
    ((Database.empty "c2").add_cpp_data sampleParserSource
        sampleEnumValue).2.items =
      [⟨sampleEnumValue, sampleParserSource, Option.none, Option.none⟩] := by
  exact c10_merge_frame.2 (Database.empty "c2") sampleParserSource
    sampleEnumValue rfl

/-- C9 counterexample: a free operator function receives the operator
spelling, not its own name with scope separators replaced, contrary to
the claim about every free function. -/
theorem c9_counterexample :
    c_base_name sampleOperatorMethod .NotApplicable "math" =
      NameResult.ok "math_G_operator_add" ∧
    c_base_name sampleOperatorMethod .NotApplicable "math" ≠
      NameResult.ok ("math" ++ "_G_" ++
        replaceScopeSep sampleOperatorMethod.name) := by
  constructor
  · rfl
  · decide

/-- C9 amended: a free function that is not a constructor, destructor or
operator, with allocation place NotApplicable, receives the include-file
scope prefix, the free-function marker and its name with scope separators
replaced, with no allocation suffix. -/
theorem c9_free_function_base_name (m : CppMethod) (include_file : String)
    (hmem : m.class_membership = Option.none)
    (hop : m.operator = Option.none)
    (hkind : m.kind = CppMethodKind.Regular) :
    c_base_name m .NotApplicable include_file =
      NameResult.ok (include_file ++ "_G_" ++ replaceScopeSep m.name) := by
  simp [c_base_name, hmem, hop, CppMethod.is_constructor,
    CppMethod.is_destructor, hkind]

/-- Witness for C9: the free function add discovered in math.h receives
base name math_G_add. -/
theorem c9_witness :
    c_base_name sampleFreeAdd .NotApplicable "math" =
      NameResult.ok "math_G_add" := by
  have h := c9_free_function_base_name sampleFreeAdd "math" rfl rfl rfl
  rw [h]
  decide

end CppToRust
